import Mathlib

/-!
Verification development for the monitoring/notifications core of the
repository: a shallow embedding of `monitoring.py` (MonitoringCollector)
and `notifications.py` (AlertManager) together with theorems settling the
stated properties of the specification.

Embedding conventions:
* Python floats (timestamps, durations in milliseconds) are modelled as
  exact rationals `ℚ`; Python ints as `ℕ`/`Int`.
* `time.time()` is modelled by threading an explicit `now : ℚ` argument
  into every operation that reads the clock.
* `collections.deque(maxlen=c)` is modelled as a `List` kept to its last
  `c` elements on append (`pushBounded`); `deque(maxlen=c)` with `c < 0`
  raises `ValueError: maxlen must be non-negative` in Python, which is the
  only failure construction can surface, so the constructor returns
  `Except String _`.
* Python dicts (insertion ordered) are modelled as association lists;
  `defaultdict(int)[k] += 1` is `bump`, which updates in place or appends.
* Python `sorted` (a stable sort) is modelled by the stable insertion
  sort `sortStable`; `sorted(..., reverse=True)` keeps ties in original
  order, matched by `sortStable byCountDesc`.
* The heterogeneous statistics dict returned by `get_statistics` is an
  association list `List (String × StatValue)` so that the exact key set
  of each branch is part of the model.
-/

/-- Last `cap` elements of a list (everything when `cap ≥ length`). -/
def lastN (cap : ℕ) (l : List α) : List α :=
  l.drop (l.length - cap)

/-- Append to a `deque(maxlen=cap)`: the oldest element is discarded when
the buffer is full (with `cap = 0` nothing is ever retained). -/
def pushBounded (cap : ℕ) (l : List α) (a : α) : List α :=
  lastN cap (l ++ [a])

/-- Insert `x` into `l` before the first element `y` with `le x y`;
auxiliary step of the stable insertion sort. -/
def insertStable (le : α → α → Bool) (x : α) : List α → List α
  | [] => [x]
  | y :: ys => if le x y then x :: y :: ys else y :: insertStable le x ys

/-- Stable sort with respect to the boolean comparison `le`; extensionally
equal to Python's (stable) `sorted`. -/
def sortStable (le : α → α → Bool) : List α → List α
  | [] => []
  | x :: xs => insertStable le x (sortStable le xs)

/-- Comparison used by `sorted(d.items(), key=lambda x: x[1], reverse=True)`:
descending by count, ties keeping the original (insertion) order. -/
def byCountDesc (x y : α × ℕ) : Bool :=
  decide (y.2 ≤ x.2)

/-- Python's `dict[k] += 1` on a `defaultdict(int)`: increment in place,
or append `(k, 1)` preserving insertion order. -/
def bump [DecidableEq κ] (d : List (κ × ℕ)) (k : κ) : List (κ × ℕ) :=
  match d with
  | [] => [(k, 1)]
  | (k₁, v) :: rest => if k₁ = k then (k₁, v + 1) :: rest else (k₁, v) :: bump rest k

/-- Python's `dict(sorted(d.items(), key=lambda x: x[1], reverse=True)[:10])`
pattern with `n` in place of 10. -/
def topN (d : List (κ × ℕ)) (n : ℕ) : List (κ × ℕ) :=
  (sortStable byCountDesc d).take n

/-- Minimum of a duration list, Python `min(...)` on a non-empty iterable
(0 as the out-of-range default, never used by the code paths modelled). -/
def minD : List ℚ → ℚ
  | [] => 0
  | d :: ds => ds.foldl min d

/-- Maximum of a duration list, Python `max(...)` on a non-empty iterable. -/
def maxD : List ℚ → ℚ
  | [] => 0
  | d :: ds => ds.foldl max d

/-- RequestMetrics dataclass of `monitoring.py` (one Sample). -/
structure RequestMetrics where
  timestamp : ℚ
  path : String
  method : String
  status_code : Int
  duration : ℚ
  error_occurred : Bool
  error_type : Option String
  endpoint : Option String
deriving DecidableEq, Repr

/-- Mutable state of `MonitoringCollector` in `monitoring.py`. -/
structure MonitoringCollector where
  max_history : ℕ
  request_history : List RequestMetrics
  total_requests : ℕ
  total_errors : ℕ
  status_code_counts : List (Int × ℕ)
  path_counts : List (String × ℕ)
  method_counts : List (String × ℕ)
  error_type_counts : List (String × ℕ)
  endpoint_counts : List (String × ℕ)
  response_times : List ℚ
  start_time : ℚ
deriving DecidableEq, Repr

/-- Collector state produced by `MonitoringCollector.__init__` for an
already-validated capacity. -/
def freshCollector (cap : ℕ) (now : ℚ) : MonitoringCollector :=
  ⟨cap, [], 0, 0, [], [], [], [], [], [], now⟩

/-- MonitoringCollector.__init__: the only way construction can fail is
`deque(maxlen=max_history)` raising `ValueError` for a negative argument
(Python accepts `maxlen=0`); there is no explicit validation in the code. -/
def mkCollector (max_history : Int) (now : ℚ) : Except String MonitoringCollector :=
  if max_history < 0 then .error "maxlen must be non-negative"
  else .ok (freshCollector max_history.toNat now)

/-- Arguments of one `record_request` call, together with the value the
clock reads during the call. -/
structure RecordArgs where
  now : ℚ
  path : String
  method : String
  status_code : Int
  duration : ℚ
  error_occurred : Bool
  error_type : Option String
  endpoint : Option String
deriving DecidableEq, Repr

/-- Sample built at the top of `record_request`. -/
def mkMetrics (a : RecordArgs) : RequestMetrics :=
  ⟨a.now, a.path, a.method, a.status_code, a.duration,
   a.error_occurred, a.error_type, a.endpoint⟩

/-- MonitoringCollector.record_request: append the Sample to the bounded
history and update every lifetime counter. -/
def recordRequest (s : MonitoringCollector) (a : RecordArgs) : MonitoringCollector :=
  { s with
    request_history := pushBounded s.max_history s.request_history (mkMetrics a)
    total_requests := s.total_requests + 1
    status_code_counts := bump s.status_code_counts a.status_code
    path_counts := bump s.path_counts a.path
    method_counts := bump s.method_counts a.method
    endpoint_counts :=
      match a.endpoint with
      | some e => bump s.endpoint_counts e
      | none => s.endpoint_counts
    response_times := pushBounded 1000 s.response_times a.duration
    total_errors := if a.error_occurred then s.total_errors + 1 else s.total_errors
    error_type_counts :=
      if a.error_occurred then
        match a.error_type with
        | some t => bump s.error_type_counts t
        | none => s.error_type_counts
      else s.error_type_counts }

/-- Sequence of `record_request` calls applied in order. -/
def applyAll (s : MonitoringCollector) (reqs : List RecordArgs) : MonitoringCollector :=
  reqs.foldl recordRequest s

/-- Values of the heterogeneous statistics dict. -/
inductive StatValue where
  | rat (q : ℚ)
  | int (n : Int)
  | strNatEntries (d : List (String × ℕ))
  | intNatEntries (d : List (Int × ℕ))
  | ratEntries (d : List (String × ℚ))
deriving DecidableEq, Repr

/-- Dict access on the statistics association list. -/
def statLookup (stats : List (String × StatValue)) (k : String) : Option StatValue :=
  stats.lookup k

/-- Percentile entries of `get_statistics`: `sorted_times[int(n * p)]`,
with `int(n * 0.50)`, `int(n * 0.95)`, `int(n * 0.99)` written as exact
rational floors `n * p / 100`. -/
def pctlEntries (durs : List ℚ) : List (String × ℚ) :=
  let sorted_times := sortStable (fun a b => decide (a ≤ b)) durs
  let n := sorted_times.length
  [("p50", if 0 < n then sorted_times.getD (n * 50 / 100) 0 else 0),
   ("p95", if 0 < n then sorted_times.getD (n * 95 / 100) 0 else 0),
   ("p99", if 0 < n then sorted_times.getD (n * 99 / 100) 0 else 0)]

/-- MonitoringCollector.get_statistics: the empty-window branch returns a
fixed 9-key zero dict; the non-empty branch a 15-key dict mixing windowed
figures (average/min/max/percentiles over the retained Samples) with
lifetime counters (totals, per-status/path/method/endpoint tables). -/
def getStatistics (s : MonitoringCollector) (now : ℚ) : List (String × StatValue) :=
  let uptime := now - s.start_time
  let recent := s.request_history
  if recent.isEmpty then
    [("uptime_seconds", .rat uptime),
     ("total_requests", .int 0),
     ("requests_per_second", .rat 0),
     ("error_rate", .rat 0),
     ("average_response_time_ms", .rat 0),
     ("status_codes", .intNatEntries []),
     ("top_paths", .strNatEntries []),
     ("top_methods", .strNatEntries []),
     ("error_types", .strNatEntries [])]
  else
    let durs := recent.map (·.duration)
    let avg := durs.sum / (recent.length : ℚ)
    let error_rate :=
      if 0 < s.total_requests then (s.total_errors : ℚ) / (s.total_requests : ℚ) else 0
    let rps := if 0 < uptime then (s.total_requests : ℚ) / uptime else 0
    [("uptime_seconds", .rat uptime),
     ("total_requests", .int s.total_requests),
     ("total_errors", .int s.total_errors),
     ("requests_per_second", .rat rps),
     ("error_rate", .rat error_rate),
     ("average_response_time_ms", .rat avg),
     ("min_response_time_ms", .rat (minD durs)),
     ("max_response_time_ms", .rat (maxD durs)),
     ("response_time_percentiles", .ratEntries (pctlEntries durs)),
     ("status_codes", .intNatEntries s.status_code_counts),
     ("top_paths", .strNatEntries (topN s.path_counts 10)),
     ("top_methods", .strNatEntries s.method_counts),
     ("top_endpoints", .strNatEntries (topN s.endpoint_counts 10)),
     ("error_types", .strNatEntries s.error_type_counts),
     ("recent_request_count", .int recent.length)]

/-- Entry of the list returned by `get_recent_requests`; the dict's
`datetime` key is the ISO-8601 rendering of `timestamp` (derived, carrying
no further information) and is not modelled separately. -/
structure RecentRequestEntry where
  timestamp : ℚ
  path : String
  method : String
  status_code : Int
  duration_ms : ℚ
  error_occurred : Bool
  error_type : Option String
  endpoint : Option String
deriving DecidableEq, Repr

/-- Dict built for each Sample by `get_recent_requests`. -/
def toRecentEntry (m : RequestMetrics) : RecentRequestEntry :=
  ⟨m.timestamp, m.path, m.method, m.status_code, m.duration,
   m.error_occurred, m.error_type, m.endpoint⟩

/-- Python slice `l[-limit:]` for a non-negative `limit`: `-0` is `0`, so
`limit = 0` yields the whole list; otherwise the last `limit` elements. -/
def pyLastSlice (l : List α) (limit : ℕ) : List α :=
  if limit = 0 then l else l.drop (l.length - limit)

/-- MonitoringCollector.get_recent_requests: `list(self._request_history)[-limit:]`
reformatted entrywise. -/
def getRecentRequests (s : MonitoringCollector) (limit : ℕ) : List RecentRequestEntry :=
  (pyLastSlice s.request_history limit).map toRecentEntry

/-- MonitoringCollector.get_error_rate: error ratio over the retained
Samples with `timestamp ≥ now - time_window`, 0.0 when none qualify. -/
def getErrorRate (s : MonitoringCollector) (now time_window : ℚ) : ℚ :=
  let cutoff_time := now - time_window
  let recent := s.request_history.filter (fun m => decide (cutoff_time ≤ m.timestamp))
  if recent.isEmpty then 0
  else ((recent.countP (·.error_occurred) : ℚ)) / (recent.length : ℚ)

/-- MonitoringCollector.get_average_response_time: mean duration over the
retained Samples with `timestamp ≥ now - time_window`, 0.0 when none. -/
def getAverageResponseTime (s : MonitoringCollector) (now time_window : ℚ) : ℚ :=
  let cutoff_time := now - time_window
  let recent := s.request_history.filter (fun m => decide (cutoff_time ≤ m.timestamp))
  if recent.isEmpty then 0
  else ((recent.map (·.duration)).sum) / (recent.length : ℚ)

/-- MonitoringCollector.get_requests_by_date_range: linear scan of the
retained history, both bounds inclusive (`start ≤ t ≤ end`), `datetime`
arguments modelled by their `.timestamp()` rationals. -/
def getRequestsByDateRange (s : MonitoringCollector) (start_ts end_ts : ℚ) :
    List RequestMetrics :=
  s.request_history.filter
    (fun m => decide (start_ts ≤ m.timestamp) && decide (m.timestamp ≤ end_ts))

/-- Hour-of-day of a timestamp, `datetime.fromtimestamp(t).hour` with the
local timezone modelled as UTC. -/
def hourOfTimestamp (t : ℚ) : Int :=
  (Int.fdiv ⌊t⌋ 3600) % 24

/-- Weekday of a timestamp, `datetime.fromtimestamp(t).weekday()` (Monday
is 0) with the local timezone modelled as UTC; the epoch fell on a
Thursday, hence the offset 3. -/
def weekdayOfTimestamp (t : ℚ) : Int :=
  (Int.fdiv ⌊t⌋ 86400 + 3) % 7

/-- Aggregate kept per endpoint by `get_weekly_statistics`
(`defaultdict(lambda: {"count": 0, "errors": 0, "total_duration": 0.0})`). -/
structure EpAgg where
  count : ℕ
  errors : ℕ
  total_duration : ℚ
deriving DecidableEq, Repr

/-- One step of the per-endpoint aggregation loop of `get_weekly_statistics`. -/
def bumpEp (d : List (String × EpAgg)) (k : String) (r : RequestMetrics) :
    List (String × EpAgg) :=
  match d with
  | [] => [(k, ⟨1, if r.error_occurred then 1 else 0, r.duration⟩)]
  | (k₁, v) :: rest =>
    if k₁ = k then
      (k₁, ⟨v.count + 1, if r.error_occurred then v.errors + 1 else v.errors,
            v.total_duration + r.duration⟩) :: rest
    else (k₁, v) :: bumpEp rest k r

/-- Entry of the `top_endpoints` list of `get_weekly_statistics`. -/
structure EndpointEntry where
  endpoint : String
  count : ℕ
  error_count : ℕ
  error_rate : ℚ
  avg_duration : ℚ
deriving DecidableEq, Repr

/-- List-comprehension body building an `EndpointEntry` from an aggregate. -/
def toEndpointEntry (kv : String × EpAgg) : EndpointEntry :=
  ⟨kv.1, kv.2.count, kv.2.errors,
   if 0 < kv.2.count then (kv.2.errors : ℚ) / (kv.2.count : ℚ) else 0,
   if 0 < kv.2.count then kv.2.total_duration / (kv.2.count : ℚ) else 0⟩

/-- Comparison for `sorted(..., key=lambda x: x["count"], reverse=True)`. -/
def byEntryCountDesc (x y : EndpointEntry) : Bool :=
  decide (y.count ≤ x.count)

/-- Result shape of `get_weekly_statistics` (same keys in both branches). -/
structure WeeklyStats where
  start_date : ℚ
  end_date : ℚ
  total_requests : ℕ
  total_errors : ℕ
  error_rate : ℚ
  avg_response_time : ℚ
  top_endpoints : List EndpointEntry
  error_breakdown : List (String × ℕ)
  status_code_distribution : List (Int × ℕ)
  hourly_distribution : List (Int × ℕ)
  daily_distribution : List (Int × ℕ)
deriving DecidableEq, Repr

/-- MonitoringCollector.get_weekly_statistics: built on
`get_requests_by_date_range`; an empty match list yields the all-zero
structure (the `except` fallback, unreachable in this model, returns the
same all-zero structure). -/
def getWeeklyStatistics (s : MonitoringCollector) (start_ts end_ts : ℚ) : WeeklyStats :=
  let requests := getRequestsByDateRange s start_ts end_ts
  if requests.isEmpty then
    ⟨start_ts, end_ts, 0, 0, 0, 0, [], [], [], [], []⟩
  else
    let total_requests := requests.length
    let total_errors := requests.countP (·.error_occurred)
    let error_rate :=
      if 0 < total_requests then (total_errors : ℚ) / (total_requests : ℚ) else 0
    let avg_response_time := (requests.map (·.duration)).sum / (total_requests : ℚ)
    let endpoint_stats :=
      requests.foldl (fun d r => bumpEp d (r.endpoint.getD r.path) r) []
    let top_endpoints :=
      (sortStable byEntryCountDesc (endpoint_stats.map toEndpointEntry)).take 10
    let error_breakdown :=
      requests.foldl
        (fun d r =>
          if r.error_occurred then
            match r.error_type with
            | some t => bump d t
            | none => d
          else d) []
    let status_code_distribution :=
      requests.foldl (fun d r => bump d r.status_code) []
    let hourly_distribution :=
      requests.foldl (fun d r => bump d (hourOfTimestamp r.timestamp)) []
    let daily_distribution :=
      requests.foldl (fun d r => bump d (weekdayOfTimestamp r.timestamp)) []
    ⟨start_ts, end_ts, total_requests, total_errors, error_rate,
     avg_response_time, top_endpoints, error_breakdown,
     status_code_distribution, hourly_distribution, daily_distribution⟩

/-- Alert dataclass of `notifications.py` (`details` modelled as a
string-to-string association list). -/
structure Alert where
  id : String
  timestamp : ℚ
  alert_type : String
  title : String
  message : String
  details : List (String × String)
  read : Bool
deriving DecidableEq, Repr

/-- Mutable state of `AlertManager` in `notifications.py`. -/
structure AlertManager where
  max_alerts : ℕ
  alerts : List Alert
  alert_counter : ℕ
deriving DecidableEq, Repr

/-- AlertManager state produced by `AlertManager.__init__`. -/
def freshAlertManager (cap : ℕ) : AlertManager :=
  ⟨cap, [], 0⟩

/-- AlertManager.add_alert: bump the counter, mint the id
`alert_{int(time.time())}_{counter}`, append to the bounded buffer. -/
def addAlert (s : AlertManager) (now : ℚ) (alert_type title message : String)
    (details : List (String × String)) : String × AlertManager :=
  let counter := s.alert_counter + 1
  let alert_id := "alert_" ++ toString ⌊now⌋ ++ "_" ++ toString counter
  (alert_id,
   { s with
     alert_counter := counter,
     alerts := pushBounded s.max_alerts s.alerts
       ⟨alert_id, now, alert_type, title, message, details, false⟩ })

/-- Loop body of AlertManager.mark_alert_read: set the `read` flag of the
first alert with the given id; report whether one was found. -/
def markFirstRead (alert_id : String) : List Alert → Bool × List Alert
  | [] => (false, [])
  | a :: rest =>
    if a.id = alert_id then (true, { a with read := true } :: rest)
    else
      let r := markFirstRead alert_id rest
      (r.1, a :: r.2)

/-- AlertManager.mark_alert_read. -/
def markAlertRead (s : AlertManager) (alert_id : String) : Bool × AlertManager :=
  let r := markFirstRead alert_id s.alerts
  (r.1, { s with alerts := r.2 })

/-- AlertManager.get_unread_count. -/
def getUnreadCount (s : AlertManager) : ℕ :=
  s.alerts.countP (fun a => !a.read)

/-- Top-10 paths by frequency among a list of Samples, following the
claim's words (ten most frequent paths among the currently retained
Samples, ties broken by first-seen stable order); spec-side definition,
to be compared with the lifetime-counter computation in `getStatistics`. -/
def windowTopPaths (samples : List RequestMetrics) : List (String × ℕ) :=
  topN (samples.foldl (fun d m => bump d m.path) []) 10

/-- Top-10 endpoints by frequency among a list of Samples, following the
claim's words; spec-side definition for comparison with `getStatistics`. -/
def windowTopEndpoints (samples : List RequestMetrics) : List (String × ℕ) :=
  topN (samples.foldl
    (fun d m => match m.endpoint with | some e => bump d e | none => d) []) 10

/-- Percentile estimator in the words of the specification: sort the
durations ascending, take index `floor(p·n / 100)`, return the element
there when the index is in range and the maximum element otherwise. -/
def specPercentile (l : List ℚ) (p : ℕ) : ℚ :=
  let sorted := sortStable (fun a b => decide (a ≤ b)) l
  let n := l.length
  let idx := p * n / 100
  if idx < n then sorted.getD idx 0 else maxD sorted

/-- Concrete request hitting path `/a`, endpoint `ea`, at time 0. -/
def reqA : RecordArgs := ⟨0, "/a", "GET", 200, 5, false, none, some "ea"⟩

/-- Concrete request hitting path `/b`, endpoint `eb`, at time 1. -/
def reqB : RecordArgs := ⟨1, "/b", "GET", 200, 7, false, none, some "eb"⟩

/-- Capacity-1 collector that recorded `reqA` then `reqB`: the retained
window holds only the `/b` Sample while the lifetime tables still count
`/a`. -/
def stateCap1 : MonitoringCollector :=
  recordRequest (recordRequest (freshCollector 1 0) reqA) reqB

/-- Capacity-0 collector (accepted by construction) that recorded one
request: lifetime counters are nonzero while the window is empty. -/
def stateCap0 : MonitoringCollector :=
  recordRequest (freshCollector 0 0) reqA

/-- Collector with capacity 5 and no recorded requests. -/
def stateEmpty : MonitoringCollector :=
  freshCollector 5 0

/-- Alert whose `read` flag is already true. -/
def readAlert : Alert :=
  ⟨"alert_0_1", 0, "error", "boom", "msg", [], true⟩

/-- AlertManager holding one already-read alert. -/
def alertStateRead : AlertManager :=
  ⟨50, [readAlert], 1⟩

/-- Alert whose `read` flag is still false. -/
def unreadAlert : Alert :=
  ⟨"alert_3_1", 3, "error", "boom", "msg", [], false⟩

/-- AlertManager holding one unread alert. -/
def alertStateUnread : AlertManager :=
  ⟨50, [unreadAlert], 1⟩

lemma length_lastN (cap : ℕ) (l : List α) : (lastN cap l).length = l.length - (l.length - cap) := by
  simp [lastN]

lemma lastN_append_lastN (cap : ℕ) (L : List α) (a : α) :
    lastN cap (lastN cap L ++ [a]) = lastN cap (L ++ [a]) := by
  unfold lastN
  have h1 : L.drop (L.length - cap) ++ [a] = (L ++ [a]).drop (L.length - cap) :=
    (List.drop_append_of_le_length (by omega)).symm
  rw [h1, List.drop_drop]
  congr 1
  simp only [List.length_drop, List.length_append, List.length_cons,
    List.length_nil]
  omega

lemma insertStable_length (le : α → α → Bool) (x : α) (l : List α) :
    (insertStable le x l).length = l.length + 1 := by
  induction l with
  | nil => rfl
  | cons y ys ih =>
    simp only [insertStable]
    by_cases h : le x y
    · simp [h]
    · simp [h, ih]

lemma sortStable_length (le : α → α → Bool) (l : List α) :
    (sortStable le l).length = l.length := by
  induction l with
  | nil => rfl
  | cons x xs ih => simp [sortStable, insertStable_length, ih]

lemma applyAll_cons (s : MonitoringCollector) (a : RecordArgs) (l : List RecordArgs) :
    applyAll s (a :: l) = applyAll (recordRequest s a) l := rfl

lemma applyAll_append (s : MonitoringCollector) (l₁ l₂ : List RecordArgs) :
    applyAll s (l₁ ++ l₂) = applyAll (applyAll s l₁) l₂ := by
  simp [applyAll, List.foldl_append]

lemma applyAll_total_requests (s : MonitoringCollector) (l : List RecordArgs) :
    (applyAll s l).total_requests = s.total_requests + l.length := by
  induction l generalizing s with
  | nil => simp [applyAll]
  | cons a l ih =>
    rw [applyAll_cons, ih]
    simp [recordRequest]
    omega

lemma applyAll_max_history (s : MonitoringCollector) (l : List RecordArgs) :
    (applyAll s l).max_history = s.max_history := by
  induction l generalizing s with
  | nil => rfl
  | cons a l ih => rw [applyAll_cons, ih]; rfl

lemma applyAll_start_time (s : MonitoringCollector) (l : List RecordArgs) :
    (applyAll s l).start_time = s.start_time := by
  induction l generalizing s with
  | nil => rfl
  | cons a l ih => rw [applyAll_cons, ih]; rfl

lemma applyAll_history (cap : ℕ) (t0 : ℚ) (reqs : List RecordArgs) :
    (applyAll (freshCollector cap t0) reqs).request_history
      = lastN cap (reqs.map mkMetrics) := by
  induction reqs using List.reverseRecOn with
  | nil => simp [applyAll, freshCollector, lastN]
  | append_singleton l a ih =>
    rw [applyAll_append]
    show (recordRequest _ a).request_history = _
    simp only [recordRequest]
    rw [applyAll_max_history, ih]
    show pushBounded cap _ _ = _
    simp only [pushBounded]
    rw [lastN_append_lastN]
    simp

/-- C2 counterexample: a capacity of 0 satisfies `c ≤ 0`, yet constructing
a MonitoringCollector with `max_history = 0` succeeds (Python's
`deque(maxlen=0)` is legal; the claim states every `c ≤ 0` is rejected). -/
theorem mkCollector_accepts_zero_capacity_cex :
    ((0 : Int) ≤ 0) ∧ mkCollector 0 0 = Except.ok (freshCollector 0 0) :=
  ⟨by decide, rfl⟩

/-- C2 (amended): construction of a MonitoringCollector fails exactly for
negative capacity (the `ValueError` of `deque(maxlen=c)` with `c < 0`)
and succeeds for every capacity `c ≥ 0`, including 0. -/
theorem mkCollector_ok_iff_nonneg (c : Int) (t : ℚ) :
    (∃ s, mkCollector c t = Except.ok s) ↔ 0 ≤ c := by
  constructor
  · rintro ⟨s, hs⟩
    by_contra hneg
    have h : c < 0 := by omega
    rw [mkCollector, if_pos h] at hs
    exact Except.noConfusion hs
  · intro h
    refine ⟨freshCollector c.toNat t, ?_⟩
    rw [mkCollector, if_neg (by omega)]

/-- C1 counterexample: on a capacity-1 collector that recorded `/a` then
`/b`, only the `/b` Sample is retained, yet `get_statistics` reports a
`top_paths` table still containing `/a` — it is not the top-10 of the
currently retained Samples. The same happens for `top_endpoints`. -/
theorem top_paths_not_window_scoped_cex :
    statLookup (getStatistics stateCap1 2) "top_paths"
        ≠ some (.strNatEntries (windowTopPaths stateCap1.request_history))
    ∧ statLookup (getStatistics stateCap1 2) "top_endpoints"
        ≠ some (.strNatEntries (windowTopEndpoints stateCap1.request_history)) := by
  refine ⟨by decide, by decide⟩

/-- C1 (amended): for every collector with a non-empty retained window,
the `top_paths` and `top_endpoints` entries of `get_statistics` are the
first ten entries of the lifetime frequency counters sorted stably by
count descending — computed from the lifetime tables, not from the
retained window. -/
theorem top_tables_use_lifetime_counters (s : MonitoringCollector) (now : ℚ)
    (h : s.request_history ≠ []) :
    statLookup (getStatistics s now) "top_paths"
        = some (.strNatEntries (topN s.path_counts 10))
    ∧ statLookup (getStatistics s now) "top_endpoints"
        = some (.strNatEntries (topN s.endpoint_counts 10)) := by
  obtain ⟨cap, hist, tot, errs, scc, pc, mc, erc, epc, rts, st⟩ := s
  rcases hist with _ | ⟨m, rest⟩
  · exact absurd rfl h
  · exact ⟨rfl, rfl⟩

/-- C1 (amended) witness at the concrete capacity-1 collector. -/
theorem top_tables_use_lifetime_counters_witness :
    statLookup (getStatistics stateCap1 2) "top_paths"
        = some (.strNatEntries (topN stateCap1.path_counts 10))
    ∧ statLookup (getStatistics stateCap1 2) "top_endpoints"
        = some (.strNatEntries (topN stateCap1.endpoint_counts 10)) :=
  top_tables_use_lifetime_counters stateCap1 2 (by decide)

/-- C3 counterexample: a capacity-0 collector (accepted at construction)
with one recorded request has lifetime `total_requests = 1`, but the
empty-window `get_statistics` reports `total_requests` as 0 and omits the
`total_errors` key that the non-empty result carries. -/
theorem empty_window_statistics_cex :
    statLookup (getStatistics stateCap0 1) "total_requests" = some (.int 0)
    ∧ stateCap0.total_requests = 1
    ∧ "total_errors" ∉ (getStatistics stateCap0 1).map Prod.fst
    ∧ "total_errors" ∈ (getStatistics stateCap1 2).map Prod.fst :=
  ⟨rfl, rfl, by decide, by decide⟩

/-- C3 (amended): on a collector of positive capacity, an empty retained
window is only possible when nothing was ever recorded, and then
`get_statistics` returns the fixed 9-key zero dict whose hardcoded
`total_requests = 0` and `requests_per_second = 0` do agree with the (all
zero) lifetime counters, with the real uptime; the keys `total_errors`,
min/max response time, percentiles, `top_endpoints` and
`recent_request_count` of the non-empty result are absent from it. -/
theorem empty_window_statistics_shape (cap : ℕ) (t0 now : ℚ)
    (reqs : List RecordArgs) (hcap : 0 < cap)
    (h : (applyAll (freshCollector cap t0) reqs).request_history = []) :
    reqs = []
    ∧ getStatistics (applyAll (freshCollector cap t0) reqs) now =
        [("uptime_seconds", .rat (now - t0)),
         ("total_requests", .int 0),
         ("requests_per_second", .rat 0),
         ("error_rate", .rat 0),
         ("average_response_time_ms", .rat 0),
         ("status_codes", .intNatEntries []),
         ("top_paths", .strNatEntries []),
         ("top_methods", .strNatEntries []),
         ("error_types", .strNatEntries [])]
    ∧ (applyAll (freshCollector cap t0) reqs).total_requests = 0
    ∧ (applyAll (freshCollector cap t0) reqs).total_errors = 0 := by
  have hreqs : reqs = [] := by
    rw [applyAll_history] at h
    have hlen : (lastN cap (reqs.map mkMetrics)).length = 0 := by rw [h]; rfl
    rw [length_lastN] at hlen
    simp only [List.length_map] at hlen
    have : reqs.length = 0 := by omega
    exact List.length_eq_zero.mp this
  subst hreqs
  exact ⟨rfl, rfl, rfl, rfl⟩

/-- C3 (amended) witness at a fresh capacity-5 collector. -/
theorem empty_window_statistics_witness :
    ([] : List RecordArgs) = []
    ∧ getStatistics (applyAll (freshCollector 5 0) []) 7 =
        [("uptime_seconds", .rat (7 - 0)),
         ("total_requests", .int 0),
         ("requests_per_second", .rat 0),
         ("error_rate", .rat 0),
         ("average_response_time_ms", .rat 0),
         ("status_codes", .intNatEntries []),
         ("top_paths", .strNatEntries []),
         ("top_methods", .strNatEntries []),
         ("error_types", .strNatEntries [])]
    ∧ (applyAll (freshCollector 5 0) []).total_requests = 0
    ∧ (applyAll (freshCollector 5 0) []).total_errors = 0 :=
  empty_window_statistics_shape 5 0 7 [] (by decide) rfl

lemma pctlEntries_eq_spec (durs : List ℚ) (h : durs ≠ []) :
    pctlEntries durs =
      [("p50", specPercentile durs 50), ("p95", specPercentile durs 95),
       ("p99", specPercentile durs 99)] := by
  have hn : 0 < durs.length := List.length_pos.mpr h
  have h50 : durs.length * 50 / 100 < durs.length := by omega
  have h95 : durs.length * 95 / 100 < durs.length := by omega
  have h99 : durs.length * 99 / 100 < durs.length := by omega
  simp only [pctlEntries, specPercentile, sortStable_length]
  simp [hn, h50, h95, h99, Nat.mul_comm]

/-- C4: for every non-empty retained window the percentile entries of
`get_statistics` are exactly the order-statistic estimator of the claim:
sort the retained durations ascending and for percentile `p` return
`sorted[floor(p·n)]` when that index is below `n`, the maximum element
otherwise (the index is always below `n`, so the clamp never fires). -/
theorem percentiles_order_statistic (s : MonitoringCollector) (now : ℚ)
    (h : s.request_history ≠ []) :
    statLookup (getStatistics s now) "response_time_percentiles"
      = some (.ratEntries
          [("p50", specPercentile (s.request_history.map (·.duration)) 50),
           ("p95", specPercentile (s.request_history.map (·.duration)) 95),
           ("p99", specPercentile (s.request_history.map (·.duration)) 99)]) := by
  have h1 : statLookup (getStatistics s now) "response_time_percentiles"
      = some (.ratEntries (pctlEntries (s.request_history.map (·.duration)))) := by
    obtain ⟨cap, hist, tot, errs, scc, pc, mc, erc, epc, rts, st⟩ := s
    rcases hist with _ | ⟨m, rest⟩
    · exact absurd rfl h
    · rfl
  rw [h1, pctlEntries_eq_spec _ (by simpa using h)]

/-- C4 witness at the concrete capacity-1 collector. -/
theorem percentiles_order_statistic_witness :
    statLookup (getStatistics stateCap1 2) "response_time_percentiles"
      = some (.ratEntries
          [("p50", specPercentile (stateCap1.request_history.map (·.duration)) 50),
           ("p95", specPercentile (stateCap1.request_history.map (·.duration)) 95),
           ("p99", specPercentile (stateCap1.request_history.map (·.duration)) 99)]) :=
  percentiles_order_statistic stateCap1 2 (by decide)

/-- C5: on a fresh collector of capacity `C > 0`, `total_requests` after
`N` record calls equals `N` (eviction never decrements it), at most `C`
Samples are retained, the retained count never exceeds `total_requests`,
and after `C+1` records the oldest Sample (distinguished by timestamp) is
absent from `get_recent_requests(C)`. -/
theorem record_sequence_invariants (C : ℕ) (t0 : ℚ) (reqs : List RecordArgs)
    (hC : 0 < C) :
    (applyAll (freshCollector C t0) reqs).total_requests = reqs.length
    ∧ (applyAll (freshCollector C t0) reqs).request_history.length ≤ C
    ∧ (applyAll (freshCollector C t0) reqs).request_history.length
        ≤ (applyAll (freshCollector C t0) reqs).total_requests
    ∧ ∀ r0 rest, reqs = r0 :: rest → reqs.length = C + 1 →
        (∀ r ∈ rest, r.now ≠ r0.now) →
        r0.now ∉ (getRecentRequests (applyAll (freshCollector C t0) reqs) C).map
          (·.timestamp) := by
  have htot : (applyAll (freshCollector C t0) reqs).total_requests = reqs.length := by
    rw [applyAll_total_requests]
    simp [freshCollector]
  have hlen : (applyAll (freshCollector C t0) reqs).request_history.length
      = reqs.length - (reqs.length - C) := by
    rw [applyAll_history, length_lastN, List.length_map]
  refine ⟨htot, by omega, by omega, ?_⟩
  rintro r0 rest rfl hlen1 hdist
  have hrest : rest.length = C := by simpa using hlen1
  have hhist2 : (applyAll (freshCollector C t0) (r0 :: rest)).request_history
      = rest.map mkMetrics := by
    rw [applyAll_history]
    unfold lastN
    simp only [List.length_map, List.length_cons, List.map_cons]
    rw [hrest, show C + 1 - C = 1 by omega]
    rfl
  have hslice : pyLastSlice (rest.map mkMetrics) C = rest.map mkMetrics := by
    unfold pyLastSlice
    rw [if_neg (by omega)]
    simp [hrest]
  simp only [getRecentRequests, hhist2, hslice, List.map_map, List.mem_map]
  rintro ⟨r, hr, heq⟩
  exact hdist r hr heq

/-- C5 witness: capacity 1, two records at times 0 and 1. -/
theorem record_sequence_invariants_witness :
    (applyAll (freshCollector 1 0) [reqA, reqB]).total_requests = 2
    ∧ (applyAll (freshCollector 1 0) [reqA, reqB]).request_history.length ≤ 1
    ∧ (applyAll (freshCollector 1 0) [reqA, reqB]).request_history.length
        ≤ (applyAll (freshCollector 1 0) [reqA, reqB]).total_requests
    ∧ reqA.now ∉
        (getRecentRequests (applyAll (freshCollector 1 0) [reqA, reqB]) 1).map
          (·.timestamp) := by
  have h := record_sequence_invariants 1 0 [reqA, reqB] (by decide)
  exact ⟨h.1, h.2.1, h.2.2.1, h.2.2.2 reqA [reqB] rfl rfl (by decide)⟩

/-- C6: `get_weekly_statistics` always returns a structure carrying the
requested bounds, and on a range matching zero retained Samples it is the
fully-populated all-zero structure — never a failure (the function is
total in the model, mirroring the catch-all `except` branch). -/
theorem weekly_statistics_empty_range_zero (s : MonitoringCollector) (st en : ℚ) :
    (getWeeklyStatistics s st en).start_date = st
    ∧ (getWeeklyStatistics s st en).end_date = en
    ∧ (getRequestsByDateRange s st en = [] →
        getWeeklyStatistics s st en = ⟨st, en, 0, 0, 0, 0, [], [], [], [], []⟩) := by
  rcases hreq : getRequestsByDateRange s st en with _ | ⟨m, rest⟩
  · refine ⟨?_, ?_, fun _ => ?_⟩ <;> simp [getWeeklyStatistics, hreq]
  · refine ⟨?_, ?_, fun hcon => ?_⟩
    · simp [getWeeklyStatistics, hreq]
    · simp [getWeeklyStatistics, hreq]
    · exact absurd hcon (List.cons_ne_nil m rest)

/-- C6 witness at an empty collector and range [0, 1]. -/
theorem weekly_statistics_empty_range_zero_witness :
    getWeeklyStatistics stateEmpty 0 1 = ⟨0, 1, 0, 0, 0, 0, [], [], [], [], []⟩ :=
  (weekly_statistics_empty_range_zero stateEmpty 0 1).2.2 rfl

/-- C7: `get_requests_by_date_range` returns exactly the retained Samples
whose timestamp lies in `[start, end]` (both bounds inclusive), as a
sublist of the history (original insertion order preserved); a range
matching no retained Sample yields `[]`, not an error. -/
theorem date_range_filter_inclusive (s : MonitoringCollector) (st en : ℚ) :
    (getRequestsByDateRange s st en).Sublist s.request_history
    ∧ (∀ m, m ∈ getRequestsByDateRange s st en ↔
        m ∈ s.request_history ∧ st ≤ m.timestamp ∧ m.timestamp ≤ en)
    ∧ ((∀ m ∈ s.request_history, ¬(st ≤ m.timestamp ∧ m.timestamp ≤ en)) →
        getRequestsByDateRange s st en = []) := by
  refine ⟨List.filter_sublist _, fun m => ?_, fun hall => ?_⟩
  · simp [getRequestsByDateRange, List.mem_filter]
  · rw [getRequestsByDateRange, List.filter_eq_nil_iff]
    intro a ha
    simp only [Bool.and_eq_true, decide_eq_true_eq, not_and]
    intro h1 h2
    exact hall a ha ⟨h1, h2⟩

/-- C7 witness: a range entirely before the retained window yields []. -/
theorem date_range_filter_inclusive_witness :
    getRequestsByDateRange stateCap1 10 20 = [] :=
  (date_range_filter_inclusive stateCap1 10 20).2.2 (by decide)

/-- C8: `get_error_rate` and `get_average_response_time` are the error
ratio and mean duration over exactly the retained Samples with
`timestamp ≥ now - window`, and both return 0.0 when that filtered subset
is empty — in particular on an empty collector, never dividing by zero. -/
theorem window_rate_and_average (s : MonitoringCollector) (now w : ℚ) :
    (getErrorRate s now w =
      if (s.request_history.filter
            (fun m => decide (now - w ≤ m.timestamp))).isEmpty then 0
      else ((s.request_history.filter
            (fun m => decide (now - w ≤ m.timestamp))).countP (·.error_occurred) : ℚ)
        / ((s.request_history.filter
            (fun m => decide (now - w ≤ m.timestamp))).length : ℚ))
    ∧ (getAverageResponseTime s now w =
      if (s.request_history.filter
            (fun m => decide (now - w ≤ m.timestamp))).isEmpty then 0
      else ((s.request_history.filter
            (fun m => decide (now - w ≤ m.timestamp))).map (·.duration)).sum
        / ((s.request_history.filter
            (fun m => decide (now - w ≤ m.timestamp))).length : ℚ))
    ∧ (s.request_history.filter (fun m => decide (now - w ≤ m.timestamp)) = [] →
        getErrorRate s now w = 0 ∧ getAverageResponseTime s now w = 0)
    ∧ (s.request_history = [] →
        getErrorRate s now w = 0 ∧ getAverageResponseTime s now w = 0) := by
  refine ⟨rfl, rfl, fun h => ?_, fun h => ?_⟩
  · constructor
    · rw [getErrorRate]
      simp only [h]
      rfl
    · rw [getAverageResponseTime]
      simp only [h]
      rfl
  · constructor
    · rw [getErrorRate]
      simp only [h, List.filter_nil]
      rfl
    · rw [getAverageResponseTime]
      simp only [h, List.filter_nil]
      rfl

/-- C8 witness at an empty collector. -/
theorem window_rate_and_average_witness :
    getErrorRate stateEmpty 100 60 = 0
    ∧ getAverageResponseTime stateEmpty 100 60 = 0 :=
  (window_rate_and_average stateEmpty 100 60).2.2.2 rfl

lemma markFirstRead_not_found (aid : String) (l : List Alert)
    (h : l.find? (fun x => x.id == aid) = none) :
    markFirstRead aid l = (false, l) := by
  induction l with
  | nil => rfl
  | cons b rest ih =>
    by_cases hb : b.id = aid
    · rw [List.find?_cons_of_pos _ (by simp [hb])] at h
      exact Option.noConfusion h
    · rw [List.find?_cons_of_neg _ (by simp [hb])] at h
      unfold markFirstRead
      rw [if_neg hb, ih h]

lemma markFirstRead_found (aid : String) (l : List Alert) (a : Alert)
    (h : l.find? (fun x => x.id == aid) = some a) :
    (markFirstRead aid l).1 = true
    ∧ (markFirstRead aid (markFirstRead aid l).2).1 = true
    ∧ l.countP (fun x => !x.read)
        = (markFirstRead aid (markFirstRead aid l).2).2.countP (fun x => !x.read)
          + (if a.read then 0 else 1) := by
  induction l with
  | nil => exact Option.noConfusion h
  | cons b rest ih =>
    by_cases hb : b.id = aid
    · rw [List.find?_cons_of_pos _ (by simp [hb])] at h
      cases h
      refine ⟨?_, ?_, ?_⟩
      · simp [markFirstRead, hb]
      · simp [markFirstRead, hb]
      · cases ha : a.read <;>
          simp [markFirstRead, hb, ha, List.countP_cons]
    · rw [List.find?_cons_of_neg _ (by simp [hb])] at h
      obtain ⟨ih1, ih2, ih3⟩ := ih h
      refine ⟨?_, ?_, ?_⟩
      · simpa [markFirstRead, hb] using ih1
      · simpa [markFirstRead, hb] using ih2
      · simp only [markFirstRead, hb, if_neg hb, List.countP_cons]
        cases hbr : b.read <;> simp [hbr] <;> omega

/-- C9 counterexample: on a ledger whose single retained alert is already
read, calling `mark_alert_read` twice with its id returns true both times,
but `get_unread_count` does not decrease by one in total — it stays 0. -/
theorem mark_alert_read_idempotence_cex :
    (markAlertRead alertStateRead "alert_0_1").1 = true
    ∧ (markAlertRead ((markAlertRead alertStateRead "alert_0_1").2) "alert_0_1").1
        = true
    ∧ getUnreadCount alertStateRead = 0
    ∧ getUnreadCount
        ((markAlertRead ((markAlertRead alertStateRead "alert_0_1").2)
          "alert_0_1").2) = 0 := by
  refine ⟨by decide, by decide, by decide, by decide⟩

/-- C9 (amended): `mark_alert_read(id)` returns false (leaving the state
unchanged) when no retained alert has that id, and true when one does;
calling it twice on a retained id returns true both times, and across the
two calls `get_unread_count` decreases by exactly one when the first
alert carrying that id was unread beforehand, and by zero when it was
already read. -/
theorem mark_alert_read_found_iff (s : AlertManager) (aid : String) :
    (s.alerts.find? (fun x => x.id == aid) = none →
      (markAlertRead s aid).1 = false ∧ (markAlertRead s aid).2 = s)
    ∧ ∀ a, s.alerts.find? (fun x => x.id == aid) = some a →
        (markAlertRead s aid).1 = true
        ∧ (markAlertRead ((markAlertRead s aid).2) aid).1 = true
        ∧ getUnreadCount s
            = getUnreadCount ((markAlertRead ((markAlertRead s aid).2) aid).2)
              + (if a.read then 0 else 1) := by
  constructor
  · intro h
    have hm := markFirstRead_not_found aid s.alerts h
    unfold markAlertRead
    rw [hm]
    exact ⟨rfl, rfl⟩
  · intro a ha
    obtain ⟨h1, h2, h3⟩ := markFirstRead_found aid s.alerts a ha
    exact ⟨h1, h2, h3⟩

/-- C9 (amended) witness: a single unread retained alert, marked twice. -/
theorem mark_alert_read_found_iff_witness :
    (markAlertRead alertStateUnread "alert_3_1").1 = true
    ∧ (markAlertRead ((markAlertRead alertStateUnread "alert_3_1").2)
        "alert_3_1").1 = true
    ∧ getUnreadCount alertStateUnread
        = getUnreadCount
            ((markAlertRead ((markAlertRead alertStateUnread "alert_3_1").2)
              "alert_3_1").2) + 1 := by
  have h := (mark_alert_read_found_iff alertStateUnread "alert_3_1").2
    unreadAlert (by decide)
  exact ⟨h.1, h.2.1, h.2.2⟩

/-- C10: `get_recent_requests` with `limit = 0` returns every currently
retained Sample (Python's `list[-0:]` is the whole list), and for every
`limit > 0` it returns the last `min(limit, retained)` Samples in
insertion order. -/
theorem recent_requests_slice (s : MonitoringCollector) (limit : ℕ)
    (h : 0 < limit) :
    getRecentRequests s 0 = s.request_history.map toRecentEntry
    ∧ getRecentRequests s limit
        = (s.request_history.drop (s.request_history.length - limit)).map
            toRecentEntry
    ∧ (getRecentRequests s limit).length = min limit s.request_history.length := by
  refine ⟨rfl, ?_, ?_⟩
  · unfold getRecentRequests pyLastSlice
    rw [if_neg (by omega)]
  · unfold getRecentRequests pyLastSlice
    rw [if_neg (by omega)]
    simp only [List.length_map, List.length_drop]
    omega

/-- C10 witness at the concrete capacity-1 collector, limit 1. -/
theorem recent_requests_slice_witness :
    getRecentRequests stateCap1 0 = stateCap1.request_history.map toRecentEntry
    ∧ getRecentRequests stateCap1 1
        = (stateCap1.request_history.drop
            (stateCap1.request_history.length - 1)).map toRecentEntry
    ∧ (getRecentRequests stateCap1 1).length
        = min 1 stateCap1.request_history.length :=
  recent_requests_slice stateCap1 1 (by decide)
